import Mathlib

/-!
Verification development for the MeritFlow repository: a FastAPI backend
over an IBM Cloudant document store (src/backend/app/main.py) and a
CSV-to-JSON seed converter (src/csv_to_json_cloudant.py).

The definitions below are shallow embeddings of the Python source.
Network effects are factored out: each endpoint is modelled by the pure
payload it hands to the gateway, and each gateway function by its pure
reaction to an already-received HTTP response.
-/

/-! ## Document store gateway (src/backend/app/main.py, lines 36-59) -/

/-- The HTTP response received from the Cloudant store, as the gateway
sees it: its status code, its raw text body, and the value that
resp.json() would produce, kept abstract as a string payload. -/
structure StoreResponse where
  status_code : Nat
  text : String
  json : String
deriving DecidableEq

/-- The FastAPI HTTPException raised by the gateway helpers: it carries a
status code and a detail string. -/
structure HTTPExc where
  status_code : Nat
  detail : String
deriving DecidableEq

/-- Embeds cloudant_find (main.py lines 36-47): raise
HTTPException(resp.status_code, resp.text) when the status is not 200,
otherwise return resp.json(). -/
def cloudant_find (resp : StoreResponse) : Except HTTPExc String :=
  if resp.status_code ≠ 200 then
    .error ⟨resp.status_code, resp.text⟩
  else
    .ok resp.json

/-- Embeds cloudant_put (main.py lines 49-59): raise
HTTPException(resp.status_code, resp.text) when the status is not one of
200, 201, 202, otherwise return resp.json(). -/
def cloudant_put (resp : StoreResponse) : Except HTTPExc String :=
  if resp.status_code ∉ ([200, 201, 202] : List Nat) then
    .error ⟨resp.status_code, resp.text⟩
  else
    .ok resp.json

/-! ## Query payloads built by the endpoints (main.py lines 81-158) -/

/-- A selector predicate in a Cloudant _find payload: either a direct
equality test or an element-match equality test on an array field. -/
inductive SelCond where
  | eq (v : String)
  | elemMatchEq (v : String)
deriving DecidableEq

/-- The JSON body the endpoints pass to cloudant_find: a selector,
an optional sort specification, and a limit. -/
structure FindPayload where
  selector : List (String × SelCond)
  sort : Option (List (String × String))
  limit : Int
deriving DecidableEq

/-- Embeds the payload built by recent_events (main.py lines 81-88). -/
def recent_events (employee_id : String) (limit : Int) : FindPayload :=
  { selector := [("employee_id", SelCond.eq employee_id)]
    sort := some [("timestamp", "desc")]
    limit := min limit 50 }

/-- Embeds the payload built by search_courses (main.py lines 91-97). -/
def search_courses (skill_tag : String) (limit : Int) : FindPayload :=
  { selector := [("skill_tags_normalized", SelCond.elemMatchEq skill_tag)]
    sort := none
    limit := min limit 50 }

/-- Embeds the payload built by pending_kudos (main.py lines 134-144). -/
def pending_kudos (manager_id : String) (limit : Int) : FindPayload :=
  { selector := [("manager_id", SelCond.eq manager_id),
                 ("approval_status", SelCond.eq "pending")]
    sort := some [("created_at", "desc")]
    limit := min limit 50 }

/-- Embeds the payload built by pulse_team (main.py lines 151-158). -/
def pulse_team (team_id : String) (limit : Int) : FindPayload :=
  { selector := [("team_id", SelCond.eq team_id)]
    sort := some [("week_start", "desc")]
    limit := min limit 52 }

/-! ## Claim C1: query-limit clamping and payload shape -/

/-- C1: a recent-events call with employee_id e and limit n sends the
gateway a payload with limit min(n, 50), an employee_id equality
selector and a descending timestamp sort; a team-pulse call with limit n
sends limit min(n, 52); in particular limit 100 on events clamps to 50
and limit 1000 on pulse clamps to 52. -/
theorem recent_events_and_pulse_limit_clamp (e t : String) (n : Int) :
    (recent_events e n).limit = min n 50 ∧
    (recent_events e n).selector = [("employee_id", SelCond.eq e)] ∧
    (recent_events e n).sort = some [("timestamp", "desc")] ∧
    (pulse_team t n).limit = min n 52 ∧
    (recent_events e 100).limit = 50 ∧
    (pulse_team t 1000).limit = 52 := by
  refine ⟨rfl, rfl, rfl, rfl, ?_, ?_⟩ <;> norm_num [recent_events, pulse_team]

/-! ## Claim C3: gateway status handling -/

/-- C3: cloudant_find fails exactly on non-200 responses and cloudant_put
fails exactly on responses outside 200, 201, 202; every failure carries
the upstream status and body verbatim, and success returns the JSON
response, with a 409 on upsert surfacing as a 409 failure. -/
theorem gateway_status_propagation (r : StoreResponse) :
    (cloudant_find r = .error ⟨r.status_code, r.text⟩ ↔ r.status_code ≠ 200) ∧
    (r.status_code = 200 → cloudant_find r = .ok r.json) ∧
    (cloudant_put r = .error ⟨r.status_code, r.text⟩ ↔
      r.status_code ∉ ([200, 201, 202] : List Nat)) ∧
    (r.status_code ∈ ([200, 201, 202] : List Nat) → cloudant_put r = .ok r.json) ∧
    (r.status_code = 409 → cloudant_put r = .error ⟨409, r.text⟩) := by
  refine ⟨?_, ?_, ?_, ?_, ?_⟩
  · by_cases hc : r.status_code = 200 <;> simp [cloudant_find, hc]
  · intro h
    simp [cloudant_find, h]
  · by_cases hc : r.status_code ∈ ([200, 201, 202] : List Nat) <;>
      simp [cloudant_put, hc]
  · intro h
    simp [cloudant_put, h]
  · intro h
    simp [cloudant_put, h]

/-- Witness for C3 at a concrete 409 upsert response. -/
theorem gateway_status_propagation_witness :
    cloudant_put ⟨409, "conflict body", "ignored"⟩ = .error ⟨409, "conflict body"⟩ :=
  (gateway_status_propagation ⟨409, "conflict body", "ignored"⟩).2.2.2.2 rfl

/-! ## Kudos creation (main.py lines 104-131)

create_kudos stamps the document with int(time.time()) and with
time.strftime("%Y-%m-%dT%H:%M:%SZ", time.gmtime()).  We model the
current time as an explicit epoch-seconds argument and embed gmtime
through the standard days-to-civil-date conversion. -/

/-- Day count of the proleptic-Gregorian date, measured from the civil
epoch used by the conversion: remainder of days-since-epoch shifted to a
400-year era. -/
def civil_doe (days : Nat) : Nat := (days + 719468) % 146097

/-- Era index (blocks of 400 years) of a day count since 1970-01-01. -/
def civil_era (days : Nat) : Nat := (days + 719468) / 146097

/-- Year-of-era of a day count since 1970-01-01. -/
def civil_yoe (days : Nat) : Nat :=
  (civil_doe days - civil_doe days / 1460 + civil_doe days / 36524
    - civil_doe days / 146096) / 365

/-- Day-of-year (March-based) of a day count since 1970-01-01. -/
def civil_doy (days : Nat) : Nat :=
  civil_doe days
    - (365 * civil_yoe days + civil_yoe days / 4 - civil_yoe days / 100)

/-- March-based month index of a day count since 1970-01-01. -/
def civil_mp (days : Nat) : Nat := (5 * civil_doy days + 2) / 153

/-- Day of month (1-31) of a day count since 1970-01-01. -/
def civil_day (days : Nat) : Nat :=
  civil_doy days - (153 * civil_mp days + 2) / 5 + 1

/-- Month (1-12) of a day count since 1970-01-01. -/
def civil_month (days : Nat) : Nat :=
  if civil_mp days < 10 then civil_mp days + 3 else civil_mp days - 9

/-- Calendar year of a day count since 1970-01-01. -/
def civil_year (days : Nat) : Nat :=
  (if civil_month days ≤ 2 then 1 else 0) + civil_yoe days + 400 * civil_era days

/-- Zero-pads a number below 100 to two digits, as strftime %m %d %H %M %S do. -/
def pad2 (n : Nat) : String := if n < 10 then "0" ++ toString n else toString n

/-- Zero-pads a number below 10000 to four digits; for the years 1970-9999
reachable from a nonnegative epoch this agrees with strftime %Y. -/
def pad4 (n : Nat) : String :=
  if n < 10 then "000" ++ toString n
  else if n < 100 then "00" ++ toString n
  else if n < 1000 then "0" ++ toString n
  else toString n

/-- Assembles the fixed "%Y-%m-%dT%H:%M:%SZ" layout from the six
broken-down time components. -/
def iso_utc_fmt (y mo d h mi s : Nat) : String :=
  pad4 y ++ "-" ++ pad2 mo ++ "-" ++ pad2 d ++ "T" ++ pad2 h ++ ":"
    ++ pad2 mi ++ ":" ++ pad2 s ++ "Z"

/-- Embeds time.strftime("%Y-%m-%dT%H:%M:%SZ", time.gmtime(t)) for an
epoch-second count t, via the standard civil-date conversion. -/
def strftime_iso_utc (t : Nat) : String :=
  iso_utc_fmt (civil_year (t / 86400)) (civil_month (t / 86400))
    (civil_day (t / 86400)) (t % 86400 / 3600) (t % 86400 % 3600 / 60)
    (t % 86400 % 60)

/-- The request body schema of POST /kudos/create (main.py lines 104-111). -/
structure KudosCreate where
  from_employee_id : String
  to_employee_id : String
  manager_id : String
  team_id : String
  message : String
  values_tags : Option (List String)
  related_event_id : Option String
deriving DecidableEq

/-- The document dict built by create_kudos (main.py lines 114-131). -/
structure KudosDoc where
  _id : String
  kudos_id : String
  created_at : String
  approval_status : String
  from_employee_id : String
  to_employee_id : String
  manager_id : String
  team_id : String
  message : String
  values_tags : List String
  related_event_id : Option String
deriving DecidableEq

/-- Embeds create_kudos (main.py lines 114-131) with the wall clock
int(time.time()) passed explicitly as now. -/
def create_kudos (req : KudosCreate) (now : Nat) : KudosDoc :=
  let kudos_id := "kudos_" ++ toString now
  { _id := kudos_id
    kudos_id := kudos_id
    created_at := strftime_iso_utc now
    approval_status := "pending"
    from_employee_id := req.from_employee_id
    to_employee_id := req.to_employee_id
    manager_id := req.manager_id
    team_id := req.team_id
    message := req.message
    values_tags := req.values_tags.getD []
    related_event_id := req.related_event_id }

/-! Range lemmas for the broken-down time components. -/

theorem civil_doe_lt (days : Nat) : civil_doe days < 146097 :=
  Nat.mod_lt _ (by norm_num)

theorem doy_cent_aux (doe : Nat) (h : doe ≤ 146095) :
    (doe - doe / 1460 + doe / 36524 - doe / 146096) / 36500 ≤ doe / 36524 := by
  have hf1 : 1460 * (doe / 1460) ≤ doe := Nat.mul_div_le doe 1460
  have hf2 : doe < 1460 * (doe / 1460) + 1460 := by omega
  have hd1 : 36524 * (doe / 36524) ≤ doe := Nat.mul_div_le doe 36524
  have hd2 : doe < 36524 * (doe / 36524) + 36524 := by omega
  have hq1 : 36500 * ((doe - doe / 1460 + doe / 36524 - doe / 146096) / 36500)
      ≤ doe - doe / 1460 + doe / 36524 - doe / 146096 :=
    Nat.mul_div_le _ 36500
  omega

theorem doy_cent_top :
    (146096 - 146096 / 1460 + 146096 / 36524 - 146096 / 146096) / 36500 + 1
      ≤ 146096 / 36524 := by
  norm_num

theorem hce_aux (doe : Nat) (h : doe ≤ 146096) :
    doe / 146096
      + (doe - doe / 1460 + doe / 36524 - doe / 146096) / 36500
      ≤ doe / 36524 := by
  rcases Nat.lt_or_ge doe 146096 with hlt | hge
  · have h0 : doe / 146096 = 0 := by omega
    have hx := doy_cent_aux doe (by omega)
    omega
  · have he : doe = 146096 := by omega
    subst he
    have := doy_cent_top
    have h1 : (146096 : Nat) / 146096 = 1 := by norm_num
    omega

theorem hbg_aux (doe : Nat) (h : doe ≤ 146096) :
    doe / 1460 ≤ (doe - doe / 1460 + doe / 36524 - doe / 146096) / 1460 + 1 := by
  have hf1 : 1460 * (doe / 1460) ≤ doe := Nat.mul_div_le doe 1460
  have hf2 : doe < 1460 * (doe / 1460) + 1460 := by omega
  have hb1 : 1460 * ((doe - doe / 1460 + doe / 36524 - doe / 146096) / 1460)
      ≤ doe - doe / 1460 + doe / 36524 - doe / 146096 :=
    Nat.mul_div_le _ 1460
  have hb2 : doe - doe / 1460 + doe / 36524 - doe / 146096
      < 1460 * ((doe - doe / 1460 + doe / 36524 - doe / 146096) / 1460) + 1460 := by
    omega
  omega

theorem doy_le_aux (doe : Nat) (h : doe < 146097) :
    doe - (365 * ((doe - doe / 1460 + doe / 36524 - doe / 146096) / 365)
      + ((doe - doe / 1460 + doe / 36524 - doe / 146096) / 365) / 4
      - ((doe - doe / 1460 + doe / 36524 - doe / 146096) / 365) / 100) ≤ 365 := by
  have hb : (doe - doe / 1460 + doe / 36524 - doe / 146096) / 365 / 4
      = (doe - doe / 1460 + doe / 36524 - doe / 146096) / 1460 := by
    rw [Nat.div_div_eq_div_mul]
  have hc : (doe - doe / 1460 + doe / 36524 - doe / 146096) / 365 / 100
      = (doe - doe / 1460 + doe / 36524 - doe / 146096) / 36500 := by
    rw [Nat.div_div_eq_div_mul]
  rw [hb, hc]
  have h1 := hce_aux doe (by omega)
  have h2 := hbg_aux doe (by omega)
  have h3 : 365 * ((doe - doe / 1460 + doe / 36524 - doe / 146096) / 365)
      ≤ doe - doe / 1460 + doe / 36524 - doe / 146096 :=
    Nat.mul_div_le _ 365
  have h4 : doe - doe / 1460 + doe / 36524 - doe / 146096
      < 365 * ((doe - doe / 1460 + doe / 36524 - doe / 146096) / 365) + 365 := by
    omega
  have h5 : doe / 146096 ≤ doe / 36524 := by omega
  omega

theorem civil_doy_le (days : Nat) : civil_doy days ≤ 365 := by
  unfold civil_doy civil_yoe
  exact doy_le_aux _ (civil_doe_lt days)

theorem civil_month_bounds (days : Nat) :
    1 ≤ civil_month days ∧ civil_month days ≤ 12 := by
  have h := civil_doy_le days
  unfold civil_month civil_mp
  split <;> omega

theorem civil_day_bounds (days : Nat) :
    1 ≤ civil_day days ∧ civil_day days ≤ 31 := by
  unfold civil_day civil_mp
  omega

theorem civil_yoe_le (days : Nat) : civil_yoe days ≤ 400 := by
  have h := civil_doe_lt days
  unfold civil_yoe
  omega

theorem civil_year_le (days : Nat) (h : days ≤ 47481) :
    civil_year days ≤ 9999 := by
  have hy := civil_yoe_le days
  have he : civil_era days ≤ 5 := by unfold civil_era; omega
  have : civil_year days ≤ 1 + civil_yoe days + 400 * civil_era days := by
    unfold civil_year
    split <;> omega
  omega

/-- Sanity check of the gmtime embedding at the epoch origin. -/
theorem strftime_epoch_origin : strftime_iso_utc 0 = "1970-01-01T00:00:00Z" := by
  decide

/-- Sanity check of the gmtime embedding at epoch second 1700000000,
which is 2023-11-14 22:13:20 UTC. -/
theorem strftime_known_instant :
    strftime_iso_utc 1700000000 = "2023-11-14T22:13:20Z" := by
  decide

/-! ## Claim C2: shape of the created kudos document -/

/-- C2: for every valid kudos-creation request handled at epoch second t
(any instant before the year 10000), the document built by create_kudos
has approval_status "pending", kudos_id equal to "kudos_" followed by t,
_id equal to kudos_id, and a created_at string laid out as
YYYY-MM-DDTHH:MM:SSZ with every component in its calendar range. -/
theorem create_kudos_spec (req : KudosCreate) (t : Nat)
    (ht : t < 4102444800) :
    (create_kudos req t).approval_status = "pending" ∧
    (create_kudos req t).kudos_id = "kudos_" ++ toString t ∧
    (create_kudos req t)._id = (create_kudos req t).kudos_id ∧
    ∃ y mo d h mi s, y ≤ 9999 ∧ 1 ≤ mo ∧ mo ≤ 12 ∧ 1 ≤ d ∧ d ≤ 31 ∧
      h < 24 ∧ mi < 60 ∧ s < 60 ∧
      (create_kudos req t).created_at = iso_utc_fmt y mo d h mi s := by
  refine ⟨rfl, rfl, rfl,
    civil_year (t / 86400), civil_month (t / 86400), civil_day (t / 86400),
    t % 86400 / 3600, t % 86400 % 3600 / 60, t % 86400 % 60,
    ?_, (civil_month_bounds _).1, (civil_month_bounds _).2,
    (civil_day_bounds _).1, (civil_day_bounds _).2, ?_, ?_, ?_, rfl⟩
  · exact civil_year_le _ (by omega)
  · omega
  · omega
  · omega

/-- Witness for C2 at a concrete request and the concrete creation
instant 1700000000. -/
theorem create_kudos_spec_witness :
    1700000000 < 4102444800 ∧
    ((create_kudos ⟨"E1", "E2", "M1", "T1", "thanks", none, none⟩
        1700000000).approval_status = "pending" ∧
      (create_kudos ⟨"E1", "E2", "M1", "T1", "thanks", none, none⟩
        1700000000).kudos_id = "kudos_" ++ toString 1700000000 ∧
      (create_kudos ⟨"E1", "E2", "M1", "T1", "thanks", none, none⟩
        1700000000)._id =
        (create_kudos ⟨"E1", "E2", "M1", "T1", "thanks", none, none⟩
          1700000000).kudos_id ∧
      ∃ y mo d h mi s, y ≤ 9999 ∧ 1 ≤ mo ∧ mo ≤ 12 ∧ 1 ≤ d ∧ d ≤ 31 ∧
        h < 24 ∧ mi < 60 ∧ s < 60 ∧
        (create_kudos ⟨"E1", "E2", "M1", "T1", "thanks", none, none⟩
          1700000000).created_at = iso_utc_fmt y mo d h mi s) :=
  ⟨by norm_num,
    create_kudos_spec ⟨"E1", "E2", "M1", "T1", "thanks", none, none⟩
      1700000000 (by norm_num)⟩

/-! ## CSV converter helpers (src/csv_to_json_cloudant.py)

Raw CSV cells are modelled as Option String: none is a missing cell
(pandas NaN, so pd.isna is true), some s is the cell text.  Python
str.strip removes leading and trailing whitespace; we model the ASCII
whitespace characters it strips. -/

/-- Whitespace test matching the ASCII characters stripped by the Python
str.strip default. -/
def py_space (c : Char) : Bool :=
  c = ' ' || c = '\t' || c = '\n' || c = '\r' || c = '\x0b' || c = '\x0c'

/-- Drops leading characters satisfying py_space. -/
def drop_ws : List Char → List Char
  | [] => []
  | c :: cs => if py_space c then drop_ws cs else c :: cs

/-- Embeds Python str.strip(): removes leading and trailing whitespace. -/
def py_strip (s : String) : String :=
  String.mk ((drop_ws (drop_ws s.data).reverse).reverse)

/-- Embeds Python s.split(sep) for a one-character separator: splits on
every occurrence, keeping empty chunks. -/
def split_char (sep : Char) : List Char → List (List Char)
  | [] => [[]]
  | c :: cs =>
    match split_char sep cs with
    | [] => [[c]]
    | t :: ts => if c = sep then [] :: t :: ts else (c :: t) :: ts

/-- The common pattern [x.strip() for x in s.split(sep) if x.strip()]:
split on the separator, strip each token, drop the empty ones. -/
def split_strip_drop (sep : Char) (s : String) : List String :=
  ((split_char sep s.data).map (fun cs => py_strip (String.mk cs))).filter
    (fun t => t ≠ "")

/-! A small model of json.loads, restricted to flat JSON arrays of
string literals (escape handling limited to the sequences for the quote
and the backslash).  Any other JSON shape or feature is treated as a
parse failure; in to_list_commas that failure falls back to comma
splitting, exactly as the except-pass in the code does for text that
does not parse as a list. -/

/-- Reads a JSON string body after its opening quote; returns the string
and the remaining input past the closing quote. -/
def read_jstr : List Char → Option (String × List Char)
  | [] => none
  | '"' :: rest => some ("", rest)
  | '\\' :: c :: rest =>
    if c = '"' ∨ c = '\\' then
      (read_jstr rest).map (fun p => (String.mk (c :: p.1.data), p.2))
    else
      none
  | c :: rest =>
    (read_jstr rest).map (fun p => (String.mk (c :: p.1.data), p.2))

/-- Reads a nonempty comma-separated sequence of JSON strings up to the
closing bracket, fuelled by the input length. -/
def read_jelems : Nat → List Char → Option (List String × List Char)
  | 0, _ => none
  | fuel + 1, cs =>
    match drop_ws cs with
    | '"' :: rest =>
      match read_jstr rest with
      | none => none
      | some (s, rest2) =>
        match drop_ws rest2 with
        | ',' :: rest3 =>
          match read_jelems fuel rest3 with
          | none => none
          | some (l, rest4) => some (s :: l, rest4)
        | ']' :: rest3 => some ([s], rest3)
        | _ => none
    | _ => none

/-- Model of json.loads restricted to flat arrays of string literals:
returns the parsed list when the whole input is such an array, and none
on anything else. -/
def json_loads_list (s : String) : Option (List String) :=
  match drop_ws s.data with
  | '[' :: rest =>
    match drop_ws rest with
    | ']' :: rest2 => if drop_ws rest2 = [] then some [] else none
    | _ =>
      match read_jelems (s.data.length + 1) rest with
      | some (l, rest2) => if drop_ws rest2 = [] then some l else none
      | none => none
  | _ => none

/-- Tests whether the stripped text starts with an opening and ends with
a closing square bracket, as s.startswith("[") and s.endswith("]") do. -/
def looks_like_list (s : String) : Bool :=
  (match s.data with
    | '[' :: _ => true
    | _ => false) &&
  (match s.data.reverse with
    | ']' :: _ => true
    | _ => false)

/-- Embeds to_list_commas (csv_to_json_cloudant.py lines 57-74): missing
or blank cells give the empty list; text that looks like a serialized
list and parses as one is returned parsed; otherwise the text is split
on commas, stripped, with empty tokens dropped. -/
def to_list_commas (val : Option String) : List String :=
  match val with
  | none => []
  | some v =>
    let s := py_strip v
    if s = "" then []
    else if looks_like_list s then
      match json_loads_list s with
      | some parsed => parsed
      | none => split_strip_drop ',' s
    else split_strip_drop ',' s

/-- Embeds to_list_pipes (csv_to_json_cloudant.py lines 77-84): missing
or blank cells give the empty list; otherwise the text is split on pipe
characters, stripped, with empty tokens dropped.  There is no
serialized-list parsing here. -/
def to_list_pipes (val : Option String) : List String :=
  match val with
  | none => []
  | some v =>
    let s := py_strip v
    if s = "" then []
    else split_strip_drop '|' s

/-- Tests whether the text matches the regex of exactly four digits, a
hyphen, two digits, a hyphen and two digits, as re.fullmatch does in
to_iso_like.  The Python regex class \d also accepts non-ASCII decimal
digits; date cells never contain those, and we model the ASCII test. -/
def is_bare_date (s : String) : Bool :=
  match s.data with
  | [y1, y2, y3, y4, h1, m1, m2, h2, d1, d2] =>
    y1.isDigit && y2.isDigit && y3.isDigit && y4.isDigit &&
    h1 = '-' && m1.isDigit && m2.isDigit && h2 = '-' &&
    d1.isDigit && d2.isDigit
  | _ => false

/-- Embeds to_iso_like (csv_to_json_cloudant.py lines 87-96): missing or
blank cells give None; a stripped bare calendar date gets T12:00:00Z
appended; any other text is returned stripped. -/
def to_iso_like (val : Option String) : Option String :=
  match val with
  | none => none
  | some v =>
    let s := py_strip v
    if s = "" then none
    else if is_bare_date s then some (s ++ "T12:00:00Z")
    else some s

/-! ## Claim C4: date normalization -/

/-- C4 counterexample: the claim says any non-empty value other than a
bare date is returned unchanged, but to_iso_like returns the stripped
text: on " x " it yields "x", not " x ". -/
theorem to_iso_like_claim_counterexample :
    to_iso_like (some " x ") = some "x" ∧
    to_iso_like (some " x ") ≠ some " x " := by
  constructor <;> decide

/-- C4 amended: a missing cell, or one that is empty after stripping,
normalizes to an absent result; a value whose stripped text matches
YYYY-MM-DD exactly normalizes to that stripped text with T12:00:00Z
appended; any other value is returned stripped of surrounding
whitespace (with no validation of well-formedness). -/
theorem to_iso_like_normalization (v : String) :
    to_iso_like none = none ∧
    (py_strip v = "" → to_iso_like (some v) = none) ∧
    (py_strip v ≠ "" → is_bare_date (py_strip v) = true →
      to_iso_like (some v) = some (py_strip v ++ "T12:00:00Z")) ∧
    (py_strip v ≠ "" → is_bare_date (py_strip v) = false →
      to_iso_like (some v) = some (py_strip v)) := by
  refine ⟨rfl, ?_, ?_, ?_⟩
  · intro h
    simp [to_iso_like, h]
  · intro h hdate
    simp [to_iso_like, h, hdate]
  · intro h hdate
    simp [to_iso_like, h, hdate]

/-- Witness for C4 on the bare date 2024-01-01. -/
theorem to_iso_like_normalization_witness :
    to_iso_like (some "2024-01-01") = some ("2024-01-01" ++ "T12:00:00Z") := by
  have h := (to_iso_like_normalization "2024-01-01").2.2.1 (by decide) (by decide)
  have hs : py_strip "2024-01-01" = "2024-01-01" := by decide
  rw [hs] at h
  exact h

/-! ## Claim C5: list coercion -/

/-- C5 counterexample: the claim says serialized-list text is parsed
instead of split for both delimiters, but to_list_pipes never parses:
on a serialized list it returns the whole text as a single token, while
to_list_commas parses the same text. -/
theorem to_list_pipes_claim_counterexample :
    to_list_pipes (some "[\"a\", \"b\"]") = ["[\"a\", \"b\"]"] ∧
    to_list_pipes (some "[\"a\", \"b\"]") ≠ ["a", "b"] ∧
    to_list_commas (some "[\"a\", \"b\"]") = ["a", "b"] := by
  refine ⟨?_, ?_, ?_⟩ <;> decide

/-- C5 amended: list coercion always returns a concrete list: a missing
or blank value yields the empty list; for comma columns, text that looks
like a serialized list and parses as a JSON list is returned parsed,
and any other text is split on commas into stripped non-empty tokens in
order; for pipe columns the text is always split on pipes into stripped
non-empty tokens in order, with no serialized-list parsing. -/
theorem list_coercion_normalization (v : String) (l : List String) :
    to_list_commas none = [] ∧
    to_list_pipes none = [] ∧
    (py_strip v = "" → to_list_commas (some v) = [] ∧ to_list_pipes (some v) = []) ∧
    (py_strip v ≠ "" → looks_like_list (py_strip v) = true →
      json_loads_list (py_strip v) = some l → to_list_commas (some v) = l) ∧
    (py_strip v ≠ "" → looks_like_list (py_strip v) = true →
      json_loads_list (py_strip v) = none →
      to_list_commas (some v) = split_strip_drop ',' (py_strip v)) ∧
    (py_strip v ≠ "" → looks_like_list (py_strip v) = false →
      to_list_commas (some v) = split_strip_drop ',' (py_strip v)) ∧
    (py_strip v ≠ "" → to_list_pipes (some v) = split_strip_drop '|' (py_strip v)) ∧
    (∀ sep s, ∀ t ∈ split_strip_drop sep s, t ≠ "") := by
  refine ⟨rfl, rfl, ?_, ?_, ?_, ?_, ?_, ?_⟩
  · intro h
    constructor <;> simp [to_list_commas, to_list_pipes, h]
  · intro h hll hj
    simp [to_list_commas, h, hll, hj]
  · intro h hll hj
    simp [to_list_commas, h, hll, hj]
  · intro h hll
    simp [to_list_commas, h, hll]
  · intro h
    simp [to_list_pipes, h]
  · intro sep s t ht
    exact of_decide_eq_true (List.mem_filter.mp ht).2

/-- Witness for C5: the serialized-list branch of to_list_commas at a
concrete input. -/
theorem list_coercion_normalization_witness :
    to_list_commas (some "[\"a\", \"b\"]") = ["a", "b"] :=
  (list_coercion_normalization "[\"a\", \"b\"]" ["a", "b"]).2.2.2.1
    (by decide) (by decide) (by decide)

/-! ## Work-event transform (csv_to_json_cloudant.py lines 105-155)

A raw pandas cell is either missing (NaN), numeric, or text.  Numeric
cells are modelled as integers: the log identifiers, hour counts and
defect counts in the source are whole numbers. -/

/-- A raw cell of the work-log DataFrame. -/
inductive Cell where
  | na
  | num (n : Int)
  | str (s : String)
deriving DecidableEq

/-- Embeds pd.notna on a single cell. -/
def py_notna : Cell → Bool
  | .na => false
  | _ => true

/-- Embeds the astype(str) coercion of a single cell: a missing cell
becomes the literal text "nan", a number is rendered in decimal, text
passes through. -/
def py_str : Cell → String
  | .na => "nan"
  | .num n => toString n
  | .str s => s

/-- Decimal value of a digit character string. -/
def digits_to_nat (l : List Char) : Nat :=
  l.foldl (fun a c => a * 10 + (c.toNat - 48)) 0

/-- Embeds Python int(s) on text: optional surrounding whitespace, an
optional sign, then decimal digits; anything else raises ValueError
(underscore separators and non-ASCII digits are not modelled). -/
def py_int_of_string (s : String) : Except String Int :=
  match (py_strip s).data with
  | '+' :: ds =>
    if ds ≠ [] ∧ ds.all Char.isDigit then .ok (digits_to_nat ds)
    else .error ("invalid literal for int() with base 10: " ++ s)
  | '-' :: ds =>
    if ds ≠ [] ∧ ds.all Char.isDigit then .ok (-(digits_to_nat ds : Int))
    else .error ("invalid literal for int() with base 10: " ++ s)
  | ds =>
    if ds ≠ [] ∧ ds.all Char.isDigit then .ok (digits_to_nat ds)
    else .error ("invalid literal for int() with base 10: " ++ s)

/-- Embeds the event-identity lambda of line 116: a missing LogID gives
None; otherwise the cell goes through int() and is prefixed with log_,
and a text cell that int() rejects raises. -/
def row_event_id : Cell → Except String (Option String)
  | .na => .ok none
  | .num n => .ok (some ("log_" ++ toString n))
  | .str s => (py_int_of_string s).map (fun n => some ("log_" ++ toString n))

/-- Embeds pd.to_numeric(x, errors="coerce") on a single cell: numbers
pass, parseable text is parsed, anything else becomes missing. -/
def to_numeric_coerce : Cell → Option Int
  | .na => none
  | .num n => some n
  | .str s =>
    match py_int_of_string s with
    | .ok n => some n
    | .error _ => none

/-- Embeds " | ".join(parts) and its fellow joins. -/
def join_sep (sep : String) : List String → String
  | [] => ""
  | [x] => x
  | x :: y :: xs => x ++ sep ++ join_sep sep (y :: xs)

/-- Embeds build_desc (lines 125-133): collect the labelled parts that
are present (the work-item type whenever its cell is not missing, the
comments and the artifact link when additionally their stripped text is
non-empty), join them with the fixed separator, and give None when no
part is present. -/
def build_desc (wit com link : Option String) : Option String :=
  let parts :=
    (match wit with
      | some w => ["Type: " ++ w]
      | none => []) ++
    (match com with
      | some c => if py_strip c ≠ "" then ["Notes: " ++ c] else []
      | none => []) ++
    (match link with
      | some l => if py_strip l ≠ "" then ["Link: " ++ l] else []
      | none => [])
  if parts = [] then none else some (join_sep " | " parts)

/-- Distinct elements of a list, with Python set semantics: duplicates
are dropped (the listing order is irrelevant here because the result is
sorted afterwards). -/
def py_set_list : List String → List String
  | [] => []
  | x :: xs => if x ∈ xs then py_set_list xs else x :: py_set_list xs

/-- Code-point lexicographic comparison of character lists, the order
Python uses to compare strings. -/
def chars_le : List Char → List Char → Bool
  | [], _ => true
  | _ :: _, [] => false
  | a :: as, b :: bs =>
    if a.toNat < b.toNat then true
    else if b.toNat < a.toNat then false
    else chars_le as bs

/-- The Python string order: code-point lexicographic comparison. -/
def py_str_le (a b : String) : Bool := chars_le a.data b.data

/-- Embeds sorted(set(l)): the unique sorted duplicate-free listing of
the elements of l. -/
def py_sorted_set (l : List String) : List String :=
  List.insertionSort (fun a b => py_str_le a b = true) (py_set_list l)

/-- The tags value of line 141-144: the sorted set union of the two
list-coerced tag columns. -/
def row_tags (skill_tags technologies : Option String) : List String :=
  py_sorted_set (to_list_commas skill_tags ++ to_list_commas technologies)

/-- A raw row of Work_log_Mock.csv, after the Employee Name column has
been dropped.  Columns that the transform reads with row.get or guards
with a column-presence test are optional. -/
structure WorkRow where
  log_id : Cell
  date : Option String
  employee_id : Cell
  manager_id : Cell
  team_id : Cell
  task_name : Cell
  work_item_type : Option String
  comments : Option String
  artifact_link : Option String
  skill_tags : Option String
  technologies : Option String
  status : Option Cell
  percent_complete : Option Cell
  complexity : Option Cell
  estimated_hours : Option Cell
  actual_hours : Option Cell
  bugs_reported : Option Cell
deriving DecidableEq

/-- A produced work_events document (one output row of the transform). -/
structure WorkEvent where
  event_id : Option String
  _id : Option String
  timestamp : Option String
  employee_id : String
  manager_id : String
  team_id : String
  title : String
  description : Option String
  tags : List String
  status : Option String
  percent_complete : Option String
  complexity : Option String
  estimated_hours : Option (Option Int)
  actual_hours : Option (Option Int)
  bugs_reported : Option (Option Int)
deriving DecidableEq

/-- Builds the output record of one row from its already-computed event
identity, following lines 117-153. -/
def row_to_event (eid : Option String) (r : WorkRow) : WorkEvent :=
  { event_id := eid
    _id := eid
    timestamp := to_iso_like r.date
    employee_id := py_str r.employee_id
    manager_id := py_str r.manager_id
    team_id := py_str r.team_id
    title := py_str r.task_name
    description := build_desc r.work_item_type r.comments r.artifact_link
    tags := row_tags r.skill_tags r.technologies
    status := r.status.map py_str
    percent_complete := r.percent_complete.map py_str
    complexity := r.complexity.map py_str
    estimated_hours := r.estimated_hours.map to_numeric_coerce
    actual_hours := r.actual_hours.map to_numeric_coerce
    bugs_reported := r.bugs_reported.map to_numeric_coerce }

/-- Transforms one row: the event-identity computation can raise, and
its error aborts the transform. -/
def work_event_of_row (r : WorkRow) : Except String WorkEvent :=
  (row_event_id r.log_id).map (fun eid => row_to_event eid r)

/-- Embeds work_log_to_work_events (lines 105-155) over the list of
rows: the first raising row aborts the whole transform. -/
def work_log_to_work_events : List WorkRow → Except String (List WorkEvent)
  | [] => .ok []
  | r :: rs =>
    match work_event_of_row r with
    | .error e => .error e
    | .ok evt => (work_log_to_work_events rs).map (fun l => evt :: l)

/-! Helper lemmas about the sorted-set construction. -/

theorem chars_le_total (as bs : List Char) :
    chars_le as bs = true ∨ chars_le bs as = true := by
  induction as generalizing bs with
  | nil => left; rfl
  | cons a as ih =>
    cases bs with
    | nil => right; rfl
    | cons b bs =>
      rcases Nat.lt_trichotomy a.toNat b.toNat with h | h | h
      · left
        simp [chars_le, h]
      · rcases ih bs with hr | hr
        · left
          simp [chars_le, h, hr]
        · right
          simp [chars_le, h, hr]
      · right
        simp [chars_le, h]

theorem chars_le_trans (as bs cs : List Char) (h1 : chars_le as bs = true)
    (h2 : chars_le bs cs = true) : chars_le as cs = true := by
  induction as generalizing bs cs with
  | nil => rfl
  | cons a as ih =>
    cases bs with
    | nil => exact absurd h1 (by simp [chars_le])
    | cons b bs =>
      cases cs with
      | nil => exact absurd h2 (by simp [chars_le])
      | cons c cs =>
        simp only [chars_le] at h1 h2 ⊢
        split at h1
        · rename_i hab
          split
          · rfl
          · rename_i hac
            split
            · rename_i hca
              exfalso
              split at h2
              · omega
              · rename_i hbc
                split at h2
                · simp at h2
                · omega
            · split at h2
              · omega
              · rename_i hbc
                split at h2
                · simp at h2
                · omega
        · rename_i hab
          split at h1
          · simp at h1
          · rename_i hba
            split at h2
            · rename_i hbc
              split
              · rfl
              · rename_i hac
                split
                · omega
                · omega
            · rename_i hbc
              split at h2
              · simp at h2
              · rename_i hcb
                split
                · rfl
                · split
                  · omega
                  · exact ih bs cs h1 h2

instance py_str_le_is_total : IsTotal String (fun a b => py_str_le a b = true) :=
  ⟨fun a b => chars_le_total a.data b.data⟩

instance py_str_le_is_trans : IsTrans String (fun a b => py_str_le a b = true) :=
  ⟨fun a b c => chars_le_trans a.data b.data c.data⟩

theorem mem_py_set_list (x : String) (l : List String) :
    x ∈ py_set_list l ↔ x ∈ l := by
  induction l with
  | nil => simp [py_set_list]
  | cons y ys ih =>
    by_cases hy : y ∈ ys
    · simp only [py_set_list, if_pos hy, ih, List.mem_cons]
      constructor
      · exact Or.inr
      · rintro (rfl | h)
        · exact hy
        · exact h
    · simp only [py_set_list, if_neg hy, List.mem_cons, ih]

theorem nodup_py_set_list (l : List String) : (py_set_list l).Nodup := by
  induction l with
  | nil => simp [py_set_list]
  | cons y ys ih =>
    by_cases hy : y ∈ ys
    · simpa only [py_set_list, if_pos hy] using ih
    · simp only [py_set_list, if_neg hy]
      exact List.Nodup.cons (fun h => hy ((mem_py_set_list y ys).mp h)) ih

theorem sorted_py_sorted_set (l : List String) :
    List.Sorted (fun a b => py_str_le a b = true) (py_sorted_set l) :=
  List.sorted_insertionSort _ _

theorem nodup_py_sorted_set (l : List String) : (py_sorted_set l).Nodup :=
  ((List.perm_insertionSort _ _).nodup_iff).mpr (nodup_py_set_list l)

theorem mem_py_sorted_set (x : String) (l : List String) :
    x ∈ py_sorted_set l ↔ x ∈ l := by
  rw [py_sorted_set, (List.perm_insertionSort _ _).mem_iff]
  exact mem_py_set_list x l

/-! ## Claim C6: work-event tag union -/

/-- C6: the tags value of every work-event row is the deduplicated,
lexicographically sorted union of the two list-coerced tag columns, and
on the coerced lists go, go, rust and java it is go, java, rust. -/
theorem work_event_tags_union (st te : Option String) :
    row_tags st te
      = py_sorted_set (to_list_commas st ++ to_list_commas te) ∧
    List.Sorted (fun a b => py_str_le a b = true) (row_tags st te) ∧
    (row_tags st te).Nodup ∧
    (∀ x, x ∈ row_tags st te ↔
      x ∈ to_list_commas st ∨ x ∈ to_list_commas te) ∧
    py_sorted_set (["go", "go", "rust"] ++ ["java"]) = ["go", "java", "rust"] := by
  refine ⟨rfl, sorted_py_sorted_set _, nodup_py_sorted_set _, ?_, ?_⟩
  · intro x
    rw [row_tags, mem_py_sorted_set, List.mem_append]
  · decide

/-! ## Claim C7: work-event description composition -/

/-- C7: the description of a work-event row joins, with the separator
" | ", exactly the parts present among the labelled work-item type,
comments with non-blank stripped text, and artifact link with non-blank
stripped text, in that fixed order, and is absent when no part is
present; in particular type Bug with blank comments and link http://x
gives "Type: Bug | Link: http://x". -/
theorem build_desc_composition (w c l cb lb : String)
    (hc : py_strip c ≠ "") (hl : py_strip l ≠ "")
    (hcb : py_strip cb = "") (hlb : py_strip lb = "") :
    build_desc none none none = none ∧
    build_desc none (some cb) (some lb) = none ∧
    build_desc (some w) none none = some ("Type: " ++ w) ∧
    build_desc (some w) (some cb) (some lb) = some ("Type: " ++ w) ∧
    build_desc none (some c) none = some ("Notes: " ++ c) ∧
    build_desc none none (some l) = some ("Link: " ++ l) ∧
    build_desc (some w) (some c) (some lb) =
      some ("Type: " ++ w ++ " | " ++ ("Notes: " ++ c)) ∧
    build_desc (some w) (some cb) (some l) =
      some ("Type: " ++ w ++ " | " ++ ("Link: " ++ l)) ∧
    build_desc none (some c) (some l) =
      some ("Notes: " ++ c ++ " | " ++ ("Link: " ++ l)) ∧
    build_desc (some w) (some c) (some l) =
      some ("Type: " ++ w ++ " | " ++ ("Notes: " ++ c ++ " | " ++ ("Link: " ++ l))) := by
  refine ⟨rfl, ?_, rfl, ?_, ?_, ?_, ?_, ?_, ?_, ?_⟩ <;>
    simp [build_desc, hc, hl, hcb, hlb, join_sep]

/-- Witness for C7: the example row with work-item type Bug, blank
comments and link http://x. -/
theorem build_desc_composition_witness :
    build_desc (some "Bug") (some "") (some "http://x")
      = some "Type: Bug | Link: http://x" := by
  have h := (build_desc_composition "Bug" "c" "http://x" "" ""
    (by decide) (by decide) (by decide) (by decide)).2.2.2.2.2.2.2.1
  simpa using h

/-! ## Output records and the NaN-to-None replacement (line 202)

The output DataFrame cells are strings, lists, numbers, or pandas
missing markers (NaN or None, collapsed here into one constructor).
df.where(pd.notnull(df), None) turns every missing marker into an
explicit null and leaves every other cell alone. -/

/-- A cell of the produced records as it stands in the output frame. -/
inductive JCell where
  | jna
  | jnull
  | jstr (s : String)
  | jlist (l : List String)
  | jnum (n : Int)
deriving DecidableEq

/-- View of an optional string field as an output cell. -/
def jcell_of_opt_str : Option String → JCell
  | none => .jna
  | some s => .jstr s

/-- View of an optional numeric field as an output cell. -/
def jcell_of_opt_num : Option Int → JCell
  | none => .jna
  | some n => .jnum n

/-- The key-cell record of one produced work event, with the optional
passthrough columns present only when their source columns existed. -/
def work_event_record (e : WorkEvent) : List (String × JCell) :=
  [("event_id", jcell_of_opt_str e.event_id),
   ("_id", jcell_of_opt_str e._id),
   ("timestamp", jcell_of_opt_str e.timestamp),
   ("employee_id", .jstr e.employee_id),
   ("manager_id", .jstr e.manager_id),
   ("team_id", .jstr e.team_id),
   ("title", .jstr e.title),
   ("description", jcell_of_opt_str e.description),
   ("tags", .jlist e.tags)]
  ++ (match e.status with
      | some s => [("status", JCell.jstr s)]
      | none => [])
  ++ (match e.percent_complete with
      | some s => [("percent_complete", JCell.jstr s)]
      | none => [])
  ++ (match e.complexity with
      | some s => [("complexity", JCell.jstr s)]
      | none => [])
  ++ (match e.estimated_hours with
      | some v => [("estimated_hours", jcell_of_opt_num v)]
      | none => [])
  ++ (match e.actual_hours with
      | some v => [("actual_hours", jcell_of_opt_num v)]
      | none => [])
  ++ (match e.bugs_reported with
      | some v => [("bugs_reported", jcell_of_opt_num v)]
      | none => [])

/-- Embeds the effect of df.where(pd.notnull(df), None) on one cell:
missing markers become explicit nulls, everything else is untouched. -/
def replace_nan_cell : JCell → JCell
  | .jna => .jnull
  | c => c

/-- The NaN-to-None replacement over a whole record. -/
def replace_nan_record (rec : List (String × JCell)) : List (String × JCell) :=
  rec.map (fun kv => (kv.1, replace_nan_cell kv.2))

/-! ## Conversion driver (csv_to_json_cloudant.py lines 159-221)

convert_csv is modelled by the control flow that decides, per file,
between the skip of an unconfigured name, the raise on a missing
identifier column, the work-log transform (whose row errors propagate),
and a successful write.  The output artifact naming and the JSON
serialization carry no logic relevant to the claims and are not
modelled. -/

/-- A source CSV file: its name, the columns of its header, and (when
it is the work log) its parsed rows. -/
structure CsvFile where
  name : String
  columns : List String
  work_rows : List WorkRow
deriving DecidableEq

/-- The parsing rules of one CONFIG entry that drive the control flow:
the identifier column and whether the work-log transform is used. -/
structure FileRules where
  id_col : Option String
  uses_transform : Bool
deriving DecidableEq

/-- The CONFIG table (lines 18-53), reduced to the fields that drive the
per-file control flow. -/
def CONFIG : List (String × FileRules) :=
  [("Course_Catalog_Mock.csv", ⟨some "course_id", false⟩),
   ("Work_log_Mock.csv", ⟨none, true⟩),
   ("Kudos_log.csv", ⟨some "kudos_id", false⟩),
   ("Growth_Recos_log.csv", ⟨some "reco_id", false⟩),
   ("Pulse_aggregates.csv", ⟨some "pulse_id", false⟩)]

/-- Outcome of one convert_csv call that did not raise. -/
inductive ConvertOutcome where
  | skipped
  | wrote
deriving DecidableEq

/-- Embeds convert_csv (lines 159-207): a file not in CONFIG is skipped
with a diagnostic; a transform file runs the work-log transform; any
other file raises ValueError when its identifier column is absent and
writes its records otherwise.  (The Python message also carries the
column listing and quoting; the model keeps its identifying prefix.) -/
def convert_csv (f : CsvFile) : Except String ConvertOutcome :=
  match CONFIG.lookup f.name with
  | none => .ok .skipped
  | some cfg =>
    if cfg.uses_transform then
      (work_log_to_work_events f.work_rows).map (fun _ => .wrote)
    else
      match cfg.id_col with
      | none => .error (f.name ++ ": id_col not found")
      | some c =>
        if c ∈ f.columns then .ok .wrote
        else .error (f.name ++ ": id_col " ++ c ++ " not found")

/-- Embeds the loop of main (lines 220-221): convert_csv is called on
each file in order with no exception handling, so the first raising
file aborts the remaining ones. -/
def run_batch : List CsvFile → Except String (List ConvertOutcome)
  | [] => .ok []
  | f :: fs =>
    match convert_csv f with
    | .error e => .error e
    | .ok r => (run_batch fs).map (fun rs => r :: rs)

/-! Concrete fixtures used by the counterexamples and witnesses. -/

/-- A work-log row with no log identifier and ordinary values elsewhere. -/
def row_base : WorkRow :=
  { log_id := Cell.na
    date := some "2025-03-01"
    employee_id := Cell.str "E1"
    manager_id := Cell.str "M1"
    team_id := Cell.str "T1"
    task_name := Cell.str "Fix pipeline"
    work_item_type := some "Bug"
    comments := none
    artifact_link := none
    skill_tags := some "go, rust"
    technologies := some "java"
    status := none
    percent_complete := none
    complexity := none
    estimated_hours := none
    actual_hours := none
    bugs_reported := none }

/-- The same row with a non-numeric log identifier. -/
def row_bad : WorkRow := { row_base with log_id := Cell.str "abc" }

/-- A row whose Employee ID cell is missing and whose Status column
exists but holds a missing cell. -/
def row_nan : WorkRow :=
  { row_base with employee_id := Cell.na, status := some Cell.na }

/-- A Kudos_log.csv file whose header lacks the kudos_id column. -/
def file_missing_id : CsvFile := ⟨"Kudos_log.csv", ["message", "team_id"], []⟩

/-- A well-formed course-catalog file. -/
def file_ok : CsvFile := ⟨"Course_Catalog_Mock.csv", ["course_id", "skills"], []⟩

/-! ## Claim C9: rows with missing or non-numeric log identifiers -/

/-- C9 counterexample: the claim says a non-numeric LogID still emits
the row and the batch completes, but int() raises on such a cell and
the whole transform errors out. -/
theorem nonnumeric_logid_counterexample :
    work_log_to_work_events [row_bad, row_base]
      = .error "invalid literal for int() with base 10: abc" ∧
    work_log_to_work_events [row_base]
      = .ok [row_to_event none row_base] := by
  constructor <;> rfl

/-- C9 amended: a row with a missing LogID yields an absent event_id and
store key, is still emitted, and the batch continues; but a row whose
LogID is a string int() rejects raises and aborts the transform of the
whole file. -/
theorem logid_row_policy (r : WorkRow) (rest : List WorkRow) :
    (r.log_id = Cell.na →
      work_event_of_row r = .ok (row_to_event none r) ∧
      (row_to_event none r).event_id = none ∧
      (row_to_event none r)._id = none ∧
      work_log_to_work_events (r :: rest)
        = (work_log_to_work_events rest).map
            (fun l => row_to_event none r :: l)) ∧
    (∀ s msg, r.log_id = Cell.str s → py_int_of_string s = .error msg →
      work_event_of_row r = .error msg ∧
      work_log_to_work_events (r :: rest) = .error msg) := by
  constructor
  · intro h
    have h1 : work_event_of_row r = .ok (row_to_event none r) := by
      simp [work_event_of_row, row_event_id, h, Except.map]
    refine ⟨h1, rfl, rfl, ?_⟩
    simp [work_log_to_work_events, h1]
  · intro s msg hs herr
    have h1 : work_event_of_row r = .error msg := by
      simp [work_event_of_row, row_event_id, hs, herr, Except.map]
    exact ⟨h1, by simp [work_log_to_work_events, h1]⟩

/-- Witness for C9: the missing-LogID row is emitted with an absent
identity and the batch continues past it. -/
theorem logid_row_policy_witness :
    work_event_of_row row_base = .ok (row_to_event none row_base) ∧
    (row_to_event none row_base).event_id = none ∧
    (row_to_event none row_base)._id = none ∧
    work_log_to_work_events (row_base :: [row_base])
      = (work_log_to_work_events [row_base]).map
          (fun l => row_to_event none row_base :: l) :=
  (logid_row_policy row_base [row_base]).1 rfl

/-! ## Claim C10: unconditional astype(str) coercion and "nan" cells -/

/-- C10: the employee, manager, team and title fields (and the optional
status, percent-complete and complexity passthroughs when their columns
exist) come from unconditional string coercion, so a missing source cell
yields the literal string "nan", which the final missing-value
replacement step leaves in place because it only touches missing
markers, never strings. -/
theorem astype_nan_passthrough (r : WorkRow) (eid : Option String)
    (h : r.employee_id = Cell.na) (hs : r.status = some Cell.na) :
    (row_to_event eid r).employee_id = py_str r.employee_id ∧
    (row_to_event eid r).manager_id = py_str r.manager_id ∧
    (row_to_event eid r).team_id = py_str r.team_id ∧
    (row_to_event eid r).title = py_str r.task_name ∧
    (row_to_event eid r).status = r.status.map py_str ∧
    (row_to_event eid r).percent_complete = r.percent_complete.map py_str ∧
    (row_to_event eid r).complexity = r.complexity.map py_str ∧
    (row_to_event eid r).employee_id = "nan" ∧
    (row_to_event eid r).status = some "nan" ∧
    (∀ s, replace_nan_cell (JCell.jstr s) = JCell.jstr s) ∧
    (work_event_record (row_to_event eid r)).lookup "employee_id"
      = some (JCell.jstr "nan") ∧
    (replace_nan_record (work_event_record (row_to_event eid r))).lookup
      "employee_id" = some (JCell.jstr "nan") := by
  refine ⟨rfl, rfl, rfl, rfl, rfl, rfl, rfl, ?_, ?_, fun s => rfl, ?_, ?_⟩
  · simp [row_to_event, h, py_str]
  · simp [row_to_event, hs, py_str]
  · simp [work_event_record, row_to_event, h, hs, py_str, List.lookup,
      jcell_of_opt_str]
  · simp [replace_nan_record, work_event_record, row_to_event, h, hs, py_str,
      List.lookup, jcell_of_opt_str, replace_nan_cell]

/-- Witness for C10 at the concrete row whose Employee ID cell and
Status cell are missing. -/
theorem astype_nan_passthrough_witness :
    (replace_nan_record (work_event_record (row_to_event none row_nan))).lookup
      "employee_id" = some (JCell.jstr "nan") :=
  (astype_nan_passthrough row_nan none rfl rfl).2.2.2.2.2.2.2.2.2.2.2

/-! ## Claim C8: files with a missing identifier column -/

/-- C8 counterexample: the claim says a configured file whose identifier
column is missing is skipped with the run continuing, but convert_csv
raises and the uncaught exception aborts the batch: the later
well-formed file is never converted, although alone it converts fine. -/
theorem missing_id_col_counterexample :
    run_batch [file_missing_id, file_ok]
      = .error "Kudos_log.csv: id_col kudos_id not found" ∧
    run_batch [file_ok] = .ok [ConvertOutcome.wrote] := by
  constructor <;> rfl

/-- C8 amended: a configured file whose identifier column is absent
raises a per-file error that aborts the whole batch, leaving the
remaining files unconverted; only a file with no CONFIG entry is
skipped with the run continuing. -/
theorem missing_id_col_aborts_batch (f : CsvFile) (fs : List CsvFile)
    (cfg : FileRules) (c : String)
    (hcfg : CONFIG.lookup f.name = some cfg)
    (ht : cfg.uses_transform = false)
    (hid : cfg.id_col = some c)
    (hmem : c ∉ f.columns) :
    convert_csv f = .error (f.name ++ ": id_col " ++ c ++ " not found") ∧
    run_batch (f :: fs) = .error (f.name ++ ": id_col " ++ c ++ " not found") ∧
    (∀ g gs, CONFIG.lookup g.name = none →
      run_batch (g :: gs)
        = (run_batch gs).map (fun rs => ConvertOutcome.skipped :: rs)) := by
  have h1 : convert_csv f = .error (f.name ++ ": id_col " ++ c ++ " not found") := by
    simp [convert_csv, hcfg, ht, hid, hmem]
  refine ⟨h1, by simp [run_batch, h1], ?_⟩
  intro g gs hg
  have h2 : convert_csv g = .ok .skipped := by
    simp [convert_csv, hg]
  simp [run_batch, h2]

/-- Witness for C8: the concrete malformed kudos file aborts its batch. -/
theorem missing_id_col_aborts_batch_witness :
    convert_csv file_missing_id
      = .error ("Kudos_log.csv" ++ ": id_col " ++ "kudos_id" ++ " not found") :=
  (missing_id_col_aborts_batch file_missing_id [file_ok]
    ⟨some "kudos_id", false⟩ "kudos_id" rfl rfl rfl (by decide)).1
